import Mathlib

/-
  Verification development for the field-extraction engine of
  src/backend/python/pdf_parser.py.

  The embedding models:
  * the regex patterns of _initialize_patterns as terms of a small regex
    AST together with a backtracking matcher (Python re semantics for the
    constructs those patterns use: greedy and lazy repetition, optional
    groups, capture groups, lookahead, word boundaries, the MULTILINE
    dollar anchor, and the IGNORECASE flag folded into the character
    classes and literals),
  * the three validators _validate_name / _validate_phone /
    _validate_address over ℚ (floats idealized as rationals),
  * _find_best_match as a fold over the candidate values each tier
    produces, in source order,
  * process_pdf with text acquisition abstracted as an Option String
    (the pdfplumber collaborator is out of core scope; None models
    "no usable text").  Timestamp, file name and file size are
    environment-derived metadata and are not modelled.
-/

/-! ## Characters and Python string helpers -/

/-- Python regex whitespace class \s restricted to ASCII:
    space, tab, newline, carriage return, vertical tab, form feed. -/
def pyIsSpace (c : Char) : Bool :=
  c == ' ' || c == '\t' || c == '\n' || c == '\r' || c == Char.ofNat 11 || c == Char.ofNat 12

/-- Python regex word-character class \w restricted to ASCII. -/
def isWordChar (c : Char) : Bool :=
  c.isAlphanum || c == '_'

/-- Python str.strip of a char list: drop leading and trailing whitespace. -/
def pyStripList (l : List Char) : List Char :=
  ((((l.dropWhile pyIsSpace).reverse).dropWhile pyIsSpace).reverse)

/-- Python str.strip on strings. -/
def pyStrip (s : String) : String :=
  String.mk (pyStripList s.toList)

/-- Helper for Python str.split: accumulate the current word (reversed). -/
def pySplitAux : List Char → List Char → List String
  | [], acc => if acc.isEmpty then [] else [String.mk acc.reverse]
  | c :: cs, acc =>
    if pyIsSpace c then
      if acc.isEmpty then pySplitAux cs []
      else String.mk acc.reverse :: pySplitAux cs []
    else pySplitAux cs (c :: acc)

/-- Python str.split() with no argument: split on whitespace runs,
    discarding empty pieces. -/
def pySplit (s : String) : List String :=
  pySplitAux s.toList []

/-! ## Regex AST

The constructs are exactly those used by the source patterns. -/

inductive Re where
  | eps
  | cls (p : Char → Bool)
  | seq (a b : Re)
  | alt (a b : Re)
  | star (lzy : Bool) (r : Re)
  | grp (n : Nat) (r : Re)
  | look (r : Re)
  | wordB
  | lineEnd
  | strEnd
  | strStart

/-- Single literal character. -/
def Re.chr (c : Char) : Re := .cls (fun x => x == c)

/-- Literal string. -/
def strLit (s : String) : Re :=
  s.toList.foldr (fun c r => Re.seq (Re.chr c) r) Re.eps

/-- Literal string under the IGNORECASE flag. -/
def strLitCI (s : String) : Re :=
  s.toList.foldr (fun c r => Re.seq (Re.cls (fun x => x.toLower == c.toLower)) r) Re.eps

/-- Left-to-right alternation chain; the empty case never matches. -/
def altChain : List Re → Re
  | [] => Re.cls (fun _ => false)
  | [r] => r
  | r :: rs => Re.alt r (altChain rs)

/-- Greedy question mark: r? -/
def Re.q01 (r : Re) : Re := .alt r .eps

/-- Exact repetition r{n}. -/
def repN : Nat → Re → Re
  | 0, _ => Re.eps
  | n + 1, r => Re.seq r (repN n r)

/-- Greedy bounded repetition r{1,n} (prefers more copies first). -/
def rep1N : Nat → Re → Re
  | 0, r => r
  | 1, r => r
  | n + 1, r => Re.seq r (Re.q01 (rep1N n r))

/-- r+ (lazy when lzy is true, i.e. +?). -/
def rePlus (lzy : Bool) (r : Re) : Re := .seq r (.star lzy r)

/-! ## Backtracking matcher

Continuation-passing matcher with Python leftmost-preference semantics.
Captures are threaded functionally; a capture list entry is
(group index, start, stop).  Fuel makes the recursion structural; every
repetition body in the source patterns consumes input, and an iteration
that consumes nothing stops the loop (as Python's engine does), so a
fuel linear in the text length is ample. -/

abbrev Caps := List (Nat × Nat × Nat)

/-- Record a capture (latest entry wins on lookup). -/
def setCap (n s e : Nat) (g : Caps) : Caps := (n, s, e) :: g

/-- Look up a capture group. -/
def getCap (n : Nat) : Caps → Option (Nat × Nat)
  | [] => none
  | e :: rest => if e.1 = n then some (e.2.1, e.2.2) else getCap n rest

/-- Is the character at index i a word character? -/
def isWordAt (t : List Char) (i : Nat) : Bool :=
  match t.get? i with
  | some c => isWordChar c
  | none => false

/-- Python \b at position pos. -/
def wordBoundary (t : List Char) (pos : Nat) : Bool :=
  (match pos with
   | 0 => false
   | p + 1 => isWordAt t p) != isWordAt t pos

/-- The matcher.  k is the continuation receiving the position and
    captures after the current node. -/
def reM (t : List Char) : Nat → Re → Nat → Caps →
    (Nat → Caps → Option (Nat × Caps)) → Option (Nat × Caps)
  | 0, _, _, _, _ => none
  | fuel + 1, re, pos, g, k =>
    match re with
    | .eps => k pos g
    | .cls p =>
      match t.get? pos with
      | some c => if p c then k (pos + 1) g else none
      | none => none
    | .seq a b => reM t fuel a pos g (fun p2 g2 => reM t fuel b p2 g2 k)
    | .alt a b =>
      match reM t fuel a pos g k with
      | some r => some r
      | none => reM t fuel b pos g k
    | .star lzy r =>
      if lzy then
        match k pos g with
        | some res => some res
        | none =>
          reM t fuel r pos g (fun p2 g2 =>
            if p2 = pos then k p2 g2 else reM t fuel (.star lzy r) p2 g2 k)
      else
        match reM t fuel r pos g (fun p2 g2 =>
            if p2 = pos then k p2 g2 else reM t fuel (.star lzy r) p2 g2 k) with
        | some res => some res
        | none => k pos g
    | .grp n r => reM t fuel r pos g (fun p2 g2 => k p2 (setCap n pos p2 g2))
    | .look r =>
      match reM t fuel r pos g (fun p2 g2 => some (p2, g2)) with
      | some _ => k pos g
      | none => none
    | .wordB => if wordBoundary t pos then k pos g else none
    | .lineEnd =>
      if pos == t.length || (match t.get? pos with
                             | some c => c == '\n'
                             | none => false) then k pos g else none
    | .strEnd =>
      if pos == t.length ||
         (pos + 1 == t.length && (match t.get? pos with
                                  | some c => c == '\n'
                                  | none => false)) then k pos g else none
    | .strStart => if pos == 0 then k pos g else none

/-- Fuel bound: linear in the text plus headroom for the pattern spine. -/
def matchFuel (t : List Char) : Nat := 8 * t.length + 1024

/-- Attempt a match anchored at pos, returning end position and captures. -/
def tryMatch (re : Re) (t : List Char) (pos : Nat) : Option (Nat × Caps) :=
  reM t (matchFuel t) re pos [] (fun p g => some (p, g))

structure MatchRes where
  start : Nat
  stop : Nat
  caps : Caps
  deriving DecidableEq

/-- re.finditer scan: leftmost, non-overlapping matches; after an empty
    match the scan advances one position. -/
def finditerAux (re : Re) (t : List Char) : Nat → Nat → List MatchRes
  | _, 0 => []
  | pos, s + 1 =>
    if pos > t.length then []
    else
      match tryMatch re t pos with
      | some pe =>
        ⟨pos, pe.1, pe.2⟩ :: finditerAux re t (if pos < pe.1 then pe.1 else pos + 1) s
      | none => finditerAux re t (pos + 1) s

/-- Python re.finditer over a char list. -/
def finditer (re : Re) (t : List Char) : List MatchRes :=
  finditerAux re t 0 (t.length + 2)

/-- Substring of t from a (inclusive) to b (exclusive). -/
def sliceStr (t : List Char) (a b : Nat) : String :=
  String.mk ((t.drop a).take (b - a))

/-- Captured text of group n (empty string when the group did not
    participate; every use on group 1 of a labeled pattern is on a group
    that always participates). -/
def groupStr (t : List Char) (m : MatchRes) (n : Nat) : String :=
  match getCap n m.caps with
  | some se => sliceStr t se.1 se.2
  | none => ""

/-- Python re.search existence over a string. -/
def reSearch (re : Re) (s : String) : Bool :=
  !(finditer re s.toList).isEmpty

/-- Python re.match (anchored at position 0) success. -/
def reMatch0 (re : Re) (s : String) : Bool :=
  (tryMatch re s.toList 0).isSome

/-! ## Pattern registry (_initialize_patterns)

The tier patterns are compiled with re.IGNORECASE | re.MULTILINE, so
case folding is baked into the classes and literals: under IGNORECASE
the class [A-Z] and the class [a-z] each match every ASCII letter. -/

/-- \s as a regex node. -/
def wsp : Re := .cls pyIsSpace

/-- [^\n] -/
def notNL : Re := .cls (fun c => !(c == '\n'))

/-- \d -/
def digitC : Re := .cls Char.isDigit

/-- [A-Z] or [a-z] under IGNORECASE. -/
def alphaC : Re := .cls Char.isAlpha

/-- [A-Z] case-sensitive (validator patterns carry no flags). -/
def upperC : Re := .cls Char.isUpper

/-- [a-z] case-sensitive. -/
def lowerC : Re := .cls Char.isLower

/-- Label head: LABEL\s*:\s* (label literal case-insensitive). -/
def labelColon (lab : String) : Re :=
  .seq (strLitCI lab) (.seq (.star false wsp) (.seq (Re.chr ':') (.star false wsp)))

/-- Name\s*:\s*([^\n]+) with base 0.9. -/
def reName1 : Re := .seq (labelColon "Name") (.grp 1 (rePlus false notNL))

/-- Full Name\s*:\s*([^\n]+) with base 0.9. -/
def reName2 : Re := .seq (labelColon "Full Name") (.grp 1 (rePlus false notNL))

/-- Customer Name\s*:\s*([^\n]+) with base 0.8. -/
def reName3 : Re := .seq (labelColon "Customer Name") (.grp 1 (rePlus false notNL))

/-- Client Name\s*:\s*([^\n]+) with base 0.8. -/
def reName4 : Re := .seq (labelColon "Client Name") (.grp 1 (rePlus false notNL))

/-- First Name\s*:\s*([^\n]+)(?:\s+Last Name\s*:\s*([^\n]+))? with base 0.7. -/
def reName5 : Re :=
  .seq (labelColon "First Name")
    (.seq (.grp 1 (rePlus false notNL))
      (Re.q01 (.seq (rePlus false wsp) (.seq (labelColon "Last Name") (.grp 2 (rePlus false notNL))))))

/-- \b[A-Z][a-z]+(?:\s+[A-Z][a-z]+){1,3}\b with base 0.4 (classes folded
    by IGNORECASE). -/
def reNameU1 : Re :=
  .seq .wordB
    (.seq alphaC
      (.seq (rePlus false alphaC)
        (.seq (rep1N 3 (.seq (rePlus false wsp) (.seq alphaC (rePlus false alphaC)))) .wordB)))

/-- [\+\d\s\(\)-] -/
def phoneCls : Re :=
  .cls (fun c => c == '+' || c.isDigit || pyIsSpace c || c == '(' || c == ')' || c == '-')

/-- ([\+\d\s\(\)-]+) as group 1. -/
def phoneCap : Re := .grp 1 (rePlus false phoneCls)

/-- Phone\s*:\s*(...) with base 0.9. -/
def rePhone1 : Re := .seq (labelColon "Phone") phoneCap

/-- Contact\s*:\s*(...) with base 0.8. -/
def rePhone2 : Re := .seq (labelColon "Contact") phoneCap

/-- Tel(?:ephone)?\s*:\s*(...) with base 0.8. -/
def rePhone3 : Re :=
  .seq (strLitCI "Tel")
    (.seq (Re.q01 (strLitCI "ephone"))
      (.seq (.star false wsp) (.seq (Re.chr ':') (.seq (.star false wsp) phoneCap))))

/-- Mobile\s*:\s*(...) with base 0.8. -/
def rePhone4 : Re := .seq (labelColon "Mobile") phoneCap

/-- Phone Number\s*:\s*(...) with base 0.9. -/
def rePhone5 : Re := .seq (labelColon "Phone Number") phoneCap

/-- [-.\s] -/
def sepC : Re := .cls (fun c => c == '-' || c == '.' || pyIsSpace c)

/-- \b(?:\+\d{1,3}[-.\s]?)?\(?\d{3}\)?[-.\s]?\d{3}[-.\s]?\d{4}\b, base 0.6. -/
def rePhoneU1 : Re :=
  .seq .wordB
    (.seq (Re.q01 (.seq (Re.chr '+') (.seq (rep1N 3 digitC) (Re.q01 sepC))))
      (.seq (Re.q01 (Re.chr '('))
        (.seq (repN 3 digitC)
          (.seq (Re.q01 (Re.chr ')'))
            (.seq (Re.q01 sepC)
              (.seq (repN 3 digitC) (.seq (Re.q01 sepC) (.seq (repN 4 digitC) .wordB))))))))

/-- \b\d{3}[-.\s]?\d{3}[-.\s]?\d{4}\b, base 0.5. -/
def rePhoneU2 : Re :=
  .seq .wordB
    (.seq (repN 3 digitC)
      (.seq (Re.q01 sepC)
        (.seq (repN 3 digitC) (.seq (Re.q01 sepC) (.seq (repN 4 digitC) .wordB)))))

/-- (?=\s*Role\s*:|$|\n) shared by the labeled address patterns
    ($ under MULTILINE). -/
def roleLook : Re :=
  .look (altChain
    [.seq (.star false wsp) (.seq (strLitCI "Role") (.seq (.star false wsp) (Re.chr ':'))),
     .lineEnd,
     Re.chr '\n'])

/-- Address\s*:\s*([^\n]+?)(?=\s*Role\s*:|$|\n), base 0.9. -/
def reAddr1 : Re := .seq (labelColon "Address") (.seq (.grp 1 (rePlus true notNL)) roleLook)

/-- Location\s*:\s*([^\n]+?)(?=\s*Role\s*:|$|\n), base 0.8. -/
def reAddr2 : Re := .seq (labelColon "Location") (.seq (.grp 1 (rePlus true notNL)) roleLook)

/-- Residence\s*:\s*([^\n]+?)(?=\s*Role\s*:|$|\n), base 0.8. -/
def reAddr3 : Re := .seq (labelColon "Residence") (.seq (.grp 1 (rePlus true notNL)) roleLook)

/-- Mailing Address\s*:\s*([^\n]+?)(?=\s*Role\s*:|$|\n), base 0.9. -/
def reAddr4 : Re := .seq (labelColon "Mailing Address") (.seq (.grp 1 (rePlus true notNL)) roleLook)

/-- [A-Za-z0-9\s,.-] -/
def addrCls : Re :=
  .cls (fun c => c.isAlpha || c.isDigit || pyIsSpace c || c == ',' || c == '.' || c == '-')

/-- [A-Za-z\s] -/
def alphaSpC : Re := .cls (fun c => c.isAlpha || pyIsSpace c)

/-- (?:Avenue|Lane|Road|Boulevard|Drive|Street|Ave|Ln|Rd|Blvd|Dr|St) in
    the order declared in the unlabeled address patterns. -/
def streetTier : Re :=
  altChain
    [strLitCI "Avenue", strLitCI "Lane", strLitCI "Road", strLitCI "Boulevard",
     strLitCI "Drive", strLitCI "Street", strLitCI "Ave", strLitCI "Ln",
     strLitCI "Rd", strLitCI "Blvd", strLitCI "Dr", strLitCI "St"]

/-- \b\d+\s+[A-Za-z0-9\s,.-]+(?:street types)\.?\s*,\s*[A-Za-z\s]+,\s*[A-Z]{2}\s+\d{5}\b,
    base 0.7 ([A-Z] folded by IGNORECASE). -/
def reAddrU1 : Re :=
  .seq .wordB
    (.seq (rePlus false digitC)
      (.seq (rePlus false wsp)
        (.seq (rePlus false addrCls)
          (.seq streetTier
            (.seq (Re.q01 (Re.chr '.'))
              (.seq (.star false wsp)
                (.seq (Re.chr ',')
                  (.seq (.star false wsp)
                    (.seq (rePlus false alphaSpC)
                      (.seq (Re.chr ',')
                        (.seq (.star false wsp)
                          (.seq (repN 2 alphaC)
                            (.seq (rePlus false wsp) (.seq (repN 5 digitC) .wordB))))))))))))))

/-- \b\d+\s+[A-Za-z0-9\s,.-]+(?:street types)\.?, base 0.5. -/
def reAddrU2 : Re :=
  .seq .wordB
    (.seq (rePlus false digitC)
      (.seq (rePlus false wsp)
        (.seq (rePlus false addrCls) (.seq streetTier (Re.q01 (Re.chr '.'))))))

/-! ## Validator patterns (no flags, except re.I on the street check) -/

/-- [^A-Za-z\s\'-]  (39 is the apostrophe). -/
def reVNameBad : Re :=
  .cls (fun c => !(c.isAlpha || pyIsSpace c || c.toNat == 39 || c == '-'))

/-- ^\+?1?\s*\(?[0-9]{3}\)?[-.\s]?[0-9]{3}[-.\s]?[0-9]{4}$ used via re.match. -/
def reVPhoneShape : Re :=
  .seq .strStart
    (.seq (Re.q01 (Re.chr '+'))
      (.seq (Re.q01 (Re.chr '1'))
        (.seq (.star false wsp)
          (.seq (Re.q01 (Re.chr '('))
            (.seq (repN 3 digitC)
              (.seq (Re.q01 (Re.chr ')'))
                (.seq (Re.q01 sepC)
                  (.seq (repN 3 digitC)
                    (.seq (Re.q01 sepC) (.seq (repN 4 digitC) .strEnd))))))))))

/-- \d+ -/
def reVAddrDigit : Re := rePlus false digitC

/-- (Street|Road|Avenue|Lane|Drive|Boulevard|St|Rd|Ave|Ln|Dr|Blvd)\b with
    re.I, in the validator's declared order. -/
def reVAddrStreet : Re :=
  .seq (.grp 1 (altChain
    [strLitCI "Street", strLitCI "Road", strLitCI "Avenue", strLitCI "Lane",
     strLitCI "Drive", strLitCI "Boulevard", strLitCI "St", strLitCI "Rd",
     strLitCI "Ave", strLitCI "Ln", strLitCI "Dr", strLitCI "Blvd"])) .wordB

/-- \b[A-Z]{2}\s+\d{5}\b (case-sensitive). -/
def reVAddrZip : Re :=
  .seq .wordB (.seq (repN 2 upperC) (.seq (rePlus false wsp) (.seq (repN 5 digitC) .wordB)))

/-- \b[A-Z][a-z]+(?:\s+[A-Z][a-z]+)*,\s*[A-Z]{2}\b (case-sensitive). -/
def reVAddrCity : Re :=
  .seq .wordB
    (.seq upperC
      (.seq (rePlus false lowerC)
        (.seq (.star false (.seq (rePlus false wsp) (.seq upperC (rePlus false lowerC))))
          (.seq (Re.chr ',')
            (.seq (.star false wsp) (.seq (repN 2 upperC) .wordB))))))

/-! ## Field types and validators -/

inductive FieldType where
  | name
  | phone
  | address
  deriving DecidableEq

/-- Rational addition written through mkRat.  The library's Rat.add is
    marked irreducible, which blocks kernel evaluation of concrete runs;
    this form is the same value (lemma qadd_eq below) and evaluates. -/
def qadd (a b : ℚ) : ℚ := mkRat (a.num * b.den + b.num * a.den) (a.den * b.den)

/-- Rational halving written through mkRat; equal to division by two
    (lemma qdiv2_eq below). -/
def qdiv2 (x : ℚ) : ℚ := mkRat x.num (2 * x.den)

/-- Python min(x, 1.0). -/
def capQ (x : ℚ) : ℚ := if x ≤ 1 then x else 1

/-- _validate_name.  Base confidence 0.5; +0.2 for a 2..4 word count;
    +0.2 when every word starts with an uppercase letter; +0.1 when no
    character falls outside letters, whitespace, apostrophe, hyphen;
    capped at 1.  Decimal literals written as fractions. -/
def validate_name (name : String) : ℚ :=
  if name = "" then 0
  else
    let c1 : ℚ := mkRat 1 2
    let c2 := if 2 ≤ (pySplit name).length ∧ (pySplit name).length ≤ 4 then qadd c1 (mkRat 1 5)
              else c1
    let c3 := if ((pySplit name).filter (fun w => w != "")).all
        (fun w => match w.toList with
                  | c :: _ => c.isUpper
                  | [] => false) then qadd c2 (mkRat 1 5) else c2
    let c4 := if !(reSearch reVNameBad name) then qadd c3 (mkRat 1 10) else c3
    capQ c4

/-- _validate_phone.  Base 0.5; +0.3 for exactly 10 digits, else +0.2
    for 11 digits starting with 1; +0.2 for the canonical shape
    (re.match); capped at 1. -/
def validate_phone (phone : String) : ℚ :=
  if phone = "" then 0
  else
    let numbersOnly := phone.toList.filter Char.isDigit
    let c1 : ℚ := mkRat 1 2
    let c2 := if numbersOnly.length = 10 then qadd c1 (mkRat 3 10)
              else if numbersOnly.length = 11 ∧ numbersOnly.head? = some '1' then
                qadd c1 (mkRat 1 5)
              else c1
    let c3 := if reMatch0 reVPhoneShape phone then qadd c2 (mkRat 1 5) else c2
    capQ c3

/-- _validate_address.  Base 0.5; +0.1 digit present; +0.1 street-type
    token; +0.2 state and ZIP; +0.1 city; +0.1 length in 10..200;
    capped at 1. -/
def validate_address (address : String) : ℚ :=
  if address = "" then 0
  else
    let c1 : ℚ := mkRat 1 2
    let c2 := if reSearch reVAddrDigit address then qadd c1 (mkRat 1 10) else c1
    let c3 := if reSearch reVAddrStreet address then qadd c2 (mkRat 1 10) else c2
    let c4 := if reSearch reVAddrZip address then qadd c3 (mkRat 1 5) else c3
    let c5 := if reSearch reVAddrCity address then qadd c4 (mkRat 1 10) else c4
    let c6 := if 10 ≤ address.length ∧ address.length ≤ 200 then qadd c5 (mkRat 1 10) else c5
    capQ c6

/-- The validator dispatch of _find_best_match. -/
def validate : FieldType → String → ℚ
  | .name => validate_name
  | .phone => validate_phone
  | .address => validate_address

/-! ## Pattern registry lists (pattern, base_confidence) -/

/-- Labeled tier rules per field type (decimals as fractions:
    0.9 = 9/10, 0.8 = 4/5, 0.7 = 7/10). -/
def patternsLabeled : FieldType → List (Re × ℚ)
  | .name =>
    [(reName1, mkRat 9 10), (reName2, mkRat 9 10), (reName3, mkRat 4 5),
     (reName4, mkRat 4 5), (reName5, mkRat 7 10)]
  | .phone =>
    [(rePhone1, mkRat 9 10), (rePhone2, mkRat 4 5), (rePhone3, mkRat 4 5),
     (rePhone4, mkRat 4 5), (rePhone5, mkRat 9 10)]
  | .address =>
    [(reAddr1, mkRat 9 10), (reAddr2, mkRat 4 5), (reAddr3, mkRat 4 5),
     (reAddr4, mkRat 9 10)]

/-- Unlabeled tier rules per field type (0.4 = 2/5, 0.6 = 3/5,
    0.5 = 1/2, 0.7 = 7/10). -/
def patternsUnlabeled : FieldType → List (Re × ℚ)
  | .name => [(reNameU1, mkRat 2 5)]
  | .phone => [(rePhoneU1, mkRat 3 5), (rePhoneU2, mkRat 1 2)]
  | .address => [(reAddrU1, mkRat 7 10), (reAddrU2, mkRat 1 2)]

/-! ## The Field Matcher (_find_best_match) -/

structure ExtractedField where
  value : String
  confidence : ℚ
  method : String
  raw_matches : List String
  deriving DecidableEq

/-- The initial running best. -/
def emptyField : ExtractedField := ⟨"", 0, "none", []⟩

/-- The candidate value the source takes from a match: group(1).strip()
    in the labeled tier, group(0).strip() in the unlabeled tier. -/
def matchValue (useGroup1 : Bool) (t : List Char) (m : MatchRes) : String :=
  pyStrip (if useGroup1 then groupStr t m 1 else sliceStr t m.start m.stop)

/-- The non-empty stripped values a tier yields, paired with the rule's
    base confidence, rules in declared order, matches in scan order
    (a match with an empty value is skipped, as in the source). -/
def tierValuesOf (rules : List (Re × ℚ)) (useGroup1 : Bool) (t : List Char) :
    List (String × ℚ) :=
  rules.flatMap fun rb =>
    (((finditer rb.1 t).map (matchValue useGroup1 t)).filter (fun v => v != "")).map
      (fun v => (v, rb.2))

/-- Each value paired with its combined score
    (base_confidence + validation_confidence) / 2. -/
def tierCandidates (vf : String → ℚ) (rules : List (Re × ℚ)) (useGroup1 : Bool)
    (t : List Char) : List (String × ℚ) :=
  (tierValuesOf rules useGroup1 t).map (fun vb => (vb.1, qdiv2 (qadd vb.2 (vf vb.1))))

/-- The replace-if-strictly-better step of the scan. -/
def consider (method : String) (b : ExtractedField) (vc : String × ℚ) : ExtractedField :=
  if vc.2 > b.confidence then ⟨vc.1, vc.2, method, [vc.1]⟩ else b

/-- Scan one tier's candidates in order, keeping the running best. -/
def scanTier (method : String) (cands : List (String × ℚ)) (b : ExtractedField) :
    ExtractedField :=
  cands.foldl (consider method) b

/-- The running best after the labeled tier. -/
def labeledPass (f : FieldType) (text : String) : ExtractedField :=
  scanTier "labeled" (tierCandidates (validate f) (patternsLabeled f) true text.toList)
    emptyField

/-- _find_best_match: labeled tier, then the unlabeled tier only when the
    running best's confidence is still below 0.6 = 3/5. -/
def findBestMatch (f : FieldType) (text : String) : ExtractedField :=
  let b := labeledPass f text
  if b.confidence < mkRat 3 5 then
    scanTier "unlabeled" (tierCandidates (validate f) (patternsUnlabeled f) false text.toList) b
  else b

/-! ## Fallibility-explicit variant of the matcher

The source calls each validator with no surrounding handler, so the
Except embedding lets a hypothetical validator failure propagate; the
actual validators are total and are embedded as always-ok. -/

/-- Monadic map over a list in the Except monad (first error wins). -/
def mapE {α β : Type} (g : α → Except String β) : List α → Except String (List β)
  | [] => .ok []
  | a :: as =>
    match g a with
    | .error e => .error e
    | .ok b =>
      match mapE g as with
      | .error e => .error e
      | .ok bs => .ok (b :: bs)

/-- tierCandidates with a fallible validator. -/
def tierCandidatesE (vfE : String → Except String ℚ) (rules : List (Re × ℚ))
    (useGroup1 : Bool) (t : List Char) : Except String (List (String × ℚ)) :=
  mapE (fun vb =>
    match vfE vb.1 with
    | .error e => .error e
    | .ok s => .ok (vb.1, qdiv2 (qadd vb.2 s))) (tierValuesOf rules useGroup1 t)

/-- _find_best_match with a fallible validator: a validator error is not
    handled anywhere inside and propagates out. -/
def findBestMatchW (vfE : String → Except String ℚ) (labRules unlabRules : List (Re × ℚ))
    (text : String) : Except String ExtractedField :=
  match tierCandidatesE vfE labRules true text.toList with
  | .error e => .error e
  | .ok lc =>
    let b := scanTier "labeled" lc emptyField
    if b.confidence < mkRat 3 5 then
      match tierCandidatesE vfE unlabRules false text.toList with
      | .error e => .error e
      | .ok uc => .ok (scanTier "unlabeled" uc b)
    else .ok b

/-- The matcher over the real registry with the real (total) validators. -/
def findBestMatchE (f : FieldType) (text : String) : Except String ExtractedField :=
  findBestMatchW (fun s => .ok (validate f s)) (patternsLabeled f) (patternsUnlabeled f) text

/-! ## Extraction Pipeline (process_pdf) -/

structure FieldOut where
  value : String
  confidence : ℚ
  method : String
  deriving DecidableEq

inductive ProcessResult where
  | error (msg : String)
  | ok (nameF phoneF addressF : FieldOut) (extraction_successful : Bool)
  deriving DecidableEq

/-- Python round(x, 2): round to 2 decimal places, ties to even. -/
def roundQ2 (x : ℚ) : ℚ :=
  let y := mkRat (x.num * 100) x.den
  let n := y.floor
  let f := mkRat (y.num - n * (y.den : ℤ)) y.den
  let r : ℤ :=
    if f < mkRat 1 2 then n
    else if mkRat 1 2 < f then n + 1
    else if n % 2 = 0 then n else n + 1
  mkRat r 100

/-- One output record: value, rounded confidence, method. -/
def fieldOutOf (f : FieldType) (text : String) : FieldOut :=
  let m := findBestMatch f text
  ⟨m.value, roundQ2 m.confidence, m.method⟩

/-- process_pdf with text acquisition abstracted: none models extract_text
    returning None (no usable text).  extraction_successful is the
    any(...) over the three field records present when the metadata dict
    is built (the metadata record itself is not yet in the dict). -/
def process_pdf (extractedText : Option String) (min_confidence : ℚ) : ProcessResult :=
  match extractedText with
  | none => .error "Could not extract text from PDF"
  | some t =>
    let n := fieldOutOf .name t
    let p := fieldOutOf .phone t
    let a := fieldOutOf .address t
    .ok n p a (decide (min_confidence ≤ n.confidence) ||
               decide (min_confidence ≤ p.confidence) ||
               decide (min_confidence ≤ a.confidence))

/-! ## Bridging lemmas for the mkRat-level arithmetic -/

lemma mkRat_eq (n : ℤ) (d : ℕ) : mkRat n d = (n : ℚ) / (d : ℚ) := Rat.mkRat_eq_div n d

lemma qadd_eq (a b : ℚ) : qadd a b = a + b := by
  unfold qadd
  rw [mkRat_eq]
  conv_rhs => rw [← Rat.num_div_den a, ← Rat.num_div_den b]
  have ha : ((a.den : ℚ)) ≠ 0 := by exact_mod_cast a.den_nz
  have hb : ((b.den : ℚ)) ≠ 0 := by exact_mod_cast b.den_nz
  rw [div_add_div _ _ ha hb]
  push_cast
  ring_nf

lemma qdiv2_eq (x : ℚ) : qdiv2 x = x / 2 := by
  unfold qdiv2
  rw [mkRat_eq]
  conv_rhs => rw [← Rat.num_div_den x]
  push_cast
  rw [div_div]
  ring_nf

lemma q35_eq : (3/5 : ℚ) = mkRat 3 5 := by rw [mkRat_eq]; norm_num

lemma q1320_eq : (13/20 : ℚ) = mkRat 13 20 := by rw [mkRat_eq]; norm_num

lemma q1720_eq : (17/20 : ℚ) = mkRat 17 20 := by rw [mkRat_eq]; norm_num

lemma q1920_eq : (19/20 : ℚ) = mkRat 19 20 := by rw [mkRat_eq]; norm_num

/-! ## General lemmas about the scan -/

/-- The running-best invariant behind claim C2: confidence is
    nonnegative, and method "none" holds exactly for the untouched
    zero-value field. -/
def InvEF (b : ExtractedField) : Prop :=
  0 ≤ b.confidence ∧ (b.method = "none" ↔ (b.value = "" ∧ b.confidence = 0))

lemma emptyField_invEF : InvEF emptyField := by
  constructor <;> simp [emptyField]

lemma consider_invEF (m : String) (hm : m ≠ "none") (b : ExtractedField)
    (vc : String × ℚ) (hb : InvEF b) : InvEF (consider m b vc) := by
  unfold consider
  split_ifs with h
  · constructor
    · exact le_of_lt (lt_of_le_of_lt hb.1 h)
    · constructor
      · intro hmeq; exact absurd hmeq hm
      · rintro ⟨hv, hc⟩
        exact absurd hc (ne_of_gt (lt_of_le_of_lt hb.1 h))
  · exact hb

lemma scanTier_invEF (m : String) (hm : m ≠ "none") :
    ∀ (cands : List (String × ℚ)) (b : ExtractedField),
      InvEF b → InvEF (scanTier m cands b) := by
  intro cands
  induction cands with
  | nil => intro b hb; exact hb
  | cons vc rest ih =>
    intro b hb
    exact ih (consider m b vc) (consider_invEF m hm b vc hb)

lemma labeledPass_invEF (f : FieldType) (t : String) : InvEF (labeledPass f t) :=
  scanTier_invEF "labeled" (by decide) _ _ emptyField_invEF

lemma findBestMatch_invEF (f : FieldType) (t : String) : InvEF (findBestMatch f t) := by
  have h1 := labeledPass_invEF f t
  simp only [findBestMatch]
  split_ifs with hc
  · exact scanTier_invEF "unlabeled" (by decide) _ _ h1
  · exact h1

lemma consider_conf_le (m : String) (b : ExtractedField) (vc : String × ℚ)
    (hvc : vc.2 ≤ 19/20) (hb : b.confidence ≤ 19/20) :
    (consider m b vc).confidence ≤ 19/20 := by
  unfold consider
  split_ifs with h
  · exact hvc
  · exact hb

lemma scanTier_conf_le (m : String) :
    ∀ (cands : List (String × ℚ)), (∀ vc ∈ cands, vc.2 ≤ 19/20) →
      ∀ b : ExtractedField, b.confidence ≤ 19/20 →
        (scanTier m cands b).confidence ≤ 19/20 := by
  intro cands
  induction cands with
  | nil => intro _ b hb; exact hb
  | cons vc rest ih =>
    intro hc b hb
    exact ih (fun x hx => hc x (List.mem_cons_of_mem _ hx)) (consider m b vc)
      (consider_conf_le m b vc (hc vc (List.mem_cons_self _ _)) hb)

lemma tierValuesOf_base {rules : List (Re × ℚ)} {g1 : Bool} {t : List Char} :
    ∀ vb ∈ tierValuesOf rules g1 t, ∃ r ∈ rules, vb.2 = r.2 := by
  intro vb h
  unfold tierValuesOf at h
  rw [List.mem_flatMap] at h
  obtain ⟨rb, hrb, hmem⟩ := h
  rw [List.mem_map] at hmem
  obtain ⟨v, hv, rfl⟩ := hmem
  exact ⟨rb, hrb, rfl⟩

lemma tierCandidates_le (vf : String → ℚ) (hv : ∀ s, vf s ≤ 1)
    (rules : List (Re × ℚ)) (hr : ∀ r ∈ rules, r.2 ≤ 9/10) (g1 : Bool) (t : List Char) :
    ∀ vc ∈ tierCandidates vf rules g1 t, vc.2 ≤ 19/20 := by
  intro vc h
  unfold tierCandidates at h
  rw [List.mem_map] at h
  obtain ⟨vb, hvb, rfl⟩ := h
  obtain ⟨r, hrm, hbase⟩ := tierValuesOf_base vb hvb
  have h1 : vb.2 ≤ 9/10 := hbase ▸ hr r hrm
  have h2 := hv vb.1
  show qdiv2 (qadd vb.2 (vf vb.1)) ≤ 19/20
  rw [qdiv2_eq, qadd_eq]
  linarith

lemma patternsLabeled_le (f : FieldType) : ∀ r ∈ patternsLabeled f, r.2 ≤ 9/10 := by
  cases f with
  | name =>
    intro r hr
    simp only [patternsLabeled, List.mem_cons, List.not_mem_nil, or_false] at hr
    rcases hr with rfl | rfl | rfl | rfl | rfl <;> norm_num [mkRat_eq]
  | phone =>
    intro r hr
    simp only [patternsLabeled, List.mem_cons, List.not_mem_nil, or_false] at hr
    rcases hr with rfl | rfl | rfl | rfl | rfl <;> norm_num [mkRat_eq]
  | address =>
    intro r hr
    simp only [patternsLabeled, List.mem_cons, List.not_mem_nil, or_false] at hr
    rcases hr with rfl | rfl | rfl | rfl <;> norm_num [mkRat_eq]

lemma patternsUnlabeled_le (f : FieldType) : ∀ r ∈ patternsUnlabeled f, r.2 ≤ 9/10 := by
  cases f with
  | name =>
    intro r hr
    simp only [patternsUnlabeled, List.mem_cons, List.not_mem_nil, or_false] at hr
    rcases hr with rfl
    norm_num [mkRat_eq]
  | phone =>
    intro r hr
    simp only [patternsUnlabeled, List.mem_cons, List.not_mem_nil, or_false] at hr
    rcases hr with rfl | rfl <;> norm_num [mkRat_eq]
  | address =>
    intro r hr
    simp only [patternsUnlabeled, List.mem_cons, List.not_mem_nil, or_false] at hr
    rcases hr with rfl | rfl <;> norm_num [mkRat_eq]

/-! ## Validator bounds -/

lemma capQ_le_one (x : ℚ) : capQ x ≤ 1 := by
  unfold capQ
  split_ifs with h
  · exact h
  · norm_num

lemma half_le_capQ {x : ℚ} (h : 1/2 ≤ x) : 1/2 ≤ capQ x := by
  unfold capQ
  split_ifs with h1
  · exact h
  · norm_num

lemma validate_empty (f : FieldType) : validate f "" = 0 := by
  cases f <;> rfl

lemma validate_le_one (f : FieldType) (s : String) : validate f s ≤ 1 := by
  cases f with
  | name =>
    show validate_name s ≤ 1
    unfold validate_name
    by_cases h : s = ""
    · rw [if_pos h]; norm_num
    · rw [if_neg h]; exact capQ_le_one _
  | phone =>
    show validate_phone s ≤ 1
    unfold validate_phone
    by_cases h : s = ""
    · rw [if_pos h]; norm_num
    · rw [if_neg h]; exact capQ_le_one _
  | address =>
    show validate_address s ≤ 1
    unfold validate_address
    by_cases h : s = ""
    · rw [if_pos h]; norm_num
    · rw [if_neg h]; exact capQ_le_one _

lemma validate_half (f : FieldType) (s : String) (h : s ≠ "") : 1/2 ≤ validate f s := by
  cases f with
  | name =>
    show 1/2 ≤ validate_name s
    unfold validate_name
    rw [if_neg h]
    refine half_le_capQ ?_
    simp only [qadd_eq, mkRat_eq]
    split_ifs <;> norm_num
  | phone =>
    show 1/2 ≤ validate_phone s
    unfold validate_phone
    rw [if_neg h]
    refine half_le_capQ ?_
    simp only [qadd_eq, mkRat_eq]
    split_ifs <;> norm_num
  | address =>
    show 1/2 ≤ validate_address s
    unfold validate_address
    rw [if_neg h]
    refine half_le_capQ ?_
    simp only [qadd_eq, mkRat_eq]
    split_ifs <;> norm_num

/-! ## Except-level reduction -/

lemma mapE_ok {α β : Type} (g : α → β) :
    ∀ l : List α, mapE (fun a => Except.ok (g a)) l = Except.ok (l.map g) := by
  intro l
  induction l with
  | nil => rfl
  | cons a as ih => simp [mapE, ih]

lemma tierCandidatesE_ok (vf : String → ℚ) (rules : List (Re × ℚ)) (g1 : Bool)
    (t : List Char) :
    tierCandidatesE (fun s => .ok (vf s)) rules g1 t =
      .ok (tierCandidates vf rules g1 t) := by
  unfold tierCandidatesE tierCandidates
  exact mapE_ok _ _

/-! ## The claims -/

/-- Claim C1, counterexample.  On the text
    "Location: abc" + newline + "123 Main Street, Springfield, IL 62704",
    the labeled tier ends at confidence 13/20 = 0.65, at least 0.6; the
    unlabeled tier would offer a candidate with strictly higher combined
    score 17/20 = 0.85; yet the returned field keeps the labeled match
    "abc" with method "labeled" — the higher-scoring unlabeled match does
    not replace it, because the unlabeled tier is never scanned once the
    labeled best reaches 0.6. -/
theorem c1_counterexample :
    (3/5 : ℚ) ≤ (labeledPass .address
        "Location: abc\n123 Main Street, Springfield, IL 62704").confidence ∧
    ("123 Main Street, Springfield, IL 62704", (17/20 : ℚ)) ∈
      tierCandidates (validate .address) (patternsUnlabeled .address) false
        ("Location: abc\n123 Main Street, Springfield, IL 62704").toList ∧
    (labeledPass .address
        "Location: abc\n123 Main Street, Springfield, IL 62704").confidence
      < 17/20 ∧
    findBestMatch .address "Location: abc\n123 Main Street, Springfield, IL 62704"
      = ExtractedField.mk "abc" (13/20) "labeled" ["abc"] := by
  rw [q35_eq, q1720_eq, q1320_eq]
  refine ⟨by decide, by decide, by decide, by decide⟩

/-- Claim C1, amended: if after scanning the Labeled tier the running
    best match scores at least 0.6, the Unlabeled tier is not scanned at
    all, so no Unlabeled match — whether lower- or strictly
    higher-scoring — replaces it: the labeled-tier running best is
    returned unchanged. -/
theorem c1_labeled_gate (f : FieldType) (t : String)
    (h : (3/5 : ℚ) ≤ (labeledPass f t).confidence) :
    findBestMatch f t = labeledPass f t := by
  simp only [findBestMatch]
  rw [if_neg (not_lt.mpr (q35_eq ▸ h))]

/-- Claim C1, witness for the amended theorem at a concrete input where
    the labeled best scores 19/20, at least 0.6. -/
theorem c1_labeled_gate_witness :
    findBestMatch .name "Name: John Smith" = labeledPass .name "Name: John Smith" :=
  c1_labeled_gate .name "Name: John Smith" (by rw [q35_eq]; decide)

/-- Claim C2: for every field type and document text, the field returned
    by the matcher has method "none" exactly when its value is empty and
    its confidence is 0. -/
theorem c2_method_none_iff (f : FieldType) (t : String) :
    (findBestMatch f t).method = "none" ↔
      ((findBestMatch f t).value = "" ∧ (findBestMatch f t).confidence = 0) :=
  (findBestMatch_invEF f t).2

/-- Claim C3: every validator returns 0 on the empty string, and on a
    non-empty candidate returns at least the base score 1/2 = 0.5
    (bonuses are only added, never subtracted) and at most 1 (capped). -/
theorem c3_validator_bounds (f : FieldType) (c : String) :
    (c = "" → validate f c = 0) ∧
    (c ≠ "" → 1/2 ≤ validate f c ∧ validate f c ≤ 1) := by
  constructor
  · intro h; subst h; exact validate_empty f
  · intro h; exact ⟨validate_half f c h, validate_le_one f c⟩

/-- Claim C3, witness at the non-empty candidate "x" for the name field. -/
theorem c3_validator_bounds_witness :
    1/2 ≤ validate .name "x" ∧ validate .name "x" ≤ 1 :=
  (c3_validator_bounds .name "x").2 (by decide)

/-- Claim C4: whenever text acquisition succeeds, the
    extraction_successful flag of the result is true exactly when at
    least one of the three field records (name, phone, address, with
    their stored rounded confidences) meets the min_confidence
    threshold; the metadata record itself takes no part in the check. -/
theorem c4_extraction_successful_iff (t : String) (minc : ℚ) (n p a : FieldOut)
    (s : Bool) (h : process_pdf (some t) minc = ProcessResult.ok n p a s) :
    s = true ↔
      (minc ≤ n.confidence ∨ minc ≤ p.confidence ∨ minc ≤ a.confidence) := by
  simp only [process_pdf] at h
  rw [ProcessResult.ok.injEq] at h
  obtain ⟨h1, h2, h3, h4⟩ := h
  subst h1; subst h2; subst h3; subst h4
  simp [Bool.or_eq_true, decide_eq_true_eq, or_assoc]

/-- Claim C4, witness on the empty document text at threshold
    mkRat 1 2 = 0.5: all three fields come back empty with confidence 0
    and the flag is false. -/
theorem c4_extraction_successful_iff_witness :
    (false = true) ↔
      (mkRat 1 2 ≤ (FieldOut.mk "" 0 "none").confidence ∨
       mkRat 1 2 ≤ (FieldOut.mk "" 0 "none").confidence ∨
       mkRat 1 2 ≤ (FieldOut.mk "" 0 "none").confidence) :=
  c4_extraction_successful_iff "" (mkRat 1 2) (FieldOut.mk "" 0 "none")
    (FieldOut.mk "" 0 "none") (FieldOut.mk "" 0 "none") false (by decide)

/-- Claim C5, counterexample.  When acquisition yields no usable text the
    pipeline does return an error result with no field records, but its
    message is "Could not extract text from PDF", not the claimed
    "Could not extract text". -/
theorem c5_counterexample :
    process_pdf none (1/2) = ProcessResult.error "Could not extract text from PDF" ∧
    "Could not extract text from PDF" ≠ "Could not extract text" :=
  ⟨rfl, by decide⟩

/-- Claim C5, amended: for every threshold, when text acquisition yields
    no usable text the pipeline returns exactly the error result carrying
    the message "Could not extract text from PDF" — a constructor with no
    field records — and is done (the result is returned directly, with no
    retry). -/
theorem c5_no_text_error (minc : ℚ) :
    process_pdf none minc = ProcessResult.error "Could not extract text from PDF" :=
  rfl

/-- Claim C6: in the fallibility-explicit embedding of the matcher — in
    which a validator failure would propagate, since the source wraps no
    handler around the validator dispatch — the matcher run with the
    program's actual validators always returns ok: the three validators
    are total, so no failure ever arises inside a validator call, none
    escapes the Field Matcher, and findBest always returns an
    ExtractedField. -/
theorem c6_no_validator_failure_escapes (f : FieldType) (t : String) :
    findBestMatchE f t = Except.ok (findBestMatch f t) := by
  unfold findBestMatchE findBestMatchW findBestMatch labeledPass
  simp only [tierCandidatesE_ok]
  split_ifs <;> rfl

/-- Claim C7, Scenario A: on "Name: John Smith" the name matcher returns
    value "John Smith" with method "labeled" and confidence
    19/20 = 0.95, the average of base confidence 9/10 = 0.9 and
    validation score 1. -/
theorem c7_scenario_name :
    findBestMatch .name "Name: John Smith" =
      ExtractedField.mk "John Smith" (19/20) "labeled" ["John Smith"] ∧
    validate .name "John Smith" = 1 ∧
    (19/20 : ℚ) = (9/10 + 1) / 2 := by
  rw [q1920_eq]
  refine ⟨by decide, by decide, by rw [mkRat_eq]; norm_num⟩

/-- Claim C8, Scenario C: on
    "Address: 123 Main Street, Springfield, IL 62704" the address
    matcher returns the full captured address with method "labeled" and
    confidence 19/20 = 0.95. -/
theorem c8_scenario_address :
    findBestMatch .address "Address: 123 Main Street, Springfield, IL 62704" =
      ExtractedField.mk "123 Main Street, Springfield, IL 62704" (19/20) "labeled"
        ["123 Main Street, Springfield, IL 62704"] := by
  rw [q1920_eq]
  decide

/-- Claim C9: for every field type and text the returned confidence is at
    most 19/20 = 0.95 and never equals 1: every base confidence is at
    most 0.9, every validation score at most 1, and a candidate's score
    is their average. -/
theorem c9_confidence_bounded (f : FieldType) (t : String) :
    (findBestMatch f t).confidence ≤ 19/20 ∧ (findBestMatch f t).confidence ≠ 1 := by
  have hlab : (labeledPass f t).confidence ≤ 19/20 := by
    unfold labeledPass
    exact scanTier_conf_le "labeled" _
      (tierCandidates_le (validate f) (validate_le_one f) _ (patternsLabeled_le f)
        true t.toList)
      emptyField (by norm_num [emptyField])
  have hmain : (findBestMatch f t).confidence ≤ 19/20 := by
    simp only [findBestMatch]
    split_ifs with hc
    · exact scanTier_conf_le "unlabeled" _
        (tierCandidates_le (validate f) (validate_le_one f) _ (patternsUnlabeled_le f)
          false t.toList)
        _ hlab
    · exact hlab
  refine ⟨hmain, fun h1 => ?_⟩
  rw [h1] at hmain
  norm_num at hmain

/-- Claim C10: a labeled-tier candidate built from any match of the
    First Name / optional Last Name rule is the stripped group-1 capture
    alone; on the concrete text "First Name: John" + newline +
    "Last Name: Smith" the rule's single match captures "Smith" in group
    2, yet the candidate value is "John", and the field the matcher
    returns carries value "John" and raw_matches ["John"] — the
    last-name capture appears in neither. -/
theorem c10_first_name_only :
    (∀ (text : String) (m : MatchRes), m ∈ finditer reName5 text.toList →
        matchValue true text.toList m = pyStrip (groupStr text.toList m 1)) ∧
    (finditer reName5 ("First Name: John\nLast Name: Smith").toList =
        [MatchRes.mk 0 33 [(2, 28, 33), (1, 12, 16)]] ∧
      groupStr ("First Name: John\nLast Name: Smith").toList
        (MatchRes.mk 0 33 [(2, 28, 33), (1, 12, 16)]) 2 = "Smith" ∧
      matchValue true ("First Name: John\nLast Name: Smith").toList
        (MatchRes.mk 0 33 [(2, 28, 33), (1, 12, 16)]) = "John") ∧
    findBestMatch .name "First Name: John\nLast Name: Smith" =
      ExtractedField.mk "John" (17/20) "labeled" ["John"] := by
  rw [q1720_eq]
  refine ⟨fun text m _ => rfl, ⟨by decide, by decide, by decide⟩, by decide⟩

/-- Claim C10, witness: the universal part applied to the concrete text
    and its concrete match. -/
theorem c10_first_name_only_witness :
    matchValue true ("First Name: John\nLast Name: Smith").toList
        (MatchRes.mk 0 33 [(2, 28, 33), (1, 12, 16)]) =
      pyStrip (groupStr ("First Name: John\nLast Name: Smith").toList
        (MatchRes.mk 0 33 [(2, 28, 33), (1, 12, 16)]) 1) :=
  c10_first_name_only.1 "First Name: John\nLast Name: Smith"
    (MatchRes.mk 0 33 [(2, 28, 33), (1, 12, 16)]) (by decide)
